import Mathlib

/-!
Verification development for `make-prefetch.py` (bigfix/platform-tools).

The Python program is shallowly embedded: the hashing/streaming routine
`process_file`, the four output renderers, the directory enumeration and the
main processing loop are translated into executable Lean definitions.  Machine
integers do not occur (sizes and error numbers are plain `Nat`); the
`hashlib` digests are abstracted as arbitrary functions from the streamed
bytes to hex strings (a `Hashers` record), which preserves everything the
claims depend on: which bytes are fed to the accumulators and where the
results are placed.  File and network I/O is modelled by a `World` value
mapping paths/URLs to their byte streams or to the exception the Python
runtime would raise.
-/

namespace MakePrefetch

/-! ### Character-list string utilities

Kernel-reducible replacements for the Python string operations the source
uses (`in`, `os.path.basename`, `urlparse(...).path`, `str.format`,
splitting printed text into lines). -/

/-- Boolean test that the character list `hay` starts with the list `pat`. -/
def startsWithL : List Char → List Char → Bool
  | _, [] => true
  | [], _ :: _ => false
  | c :: cs, p :: ps => c == p && startsWithL cs ps

/-- Boolean substring test on character lists (`pat` occurs inside `hay`). -/
def hasSubL : List Char → List Char → Bool
  | [], pat => pat.isEmpty
  | hay@(_ :: rest), pat => startsWithL hay pat || hasSubL rest pat

/-- Python's `pat in s` substring test. -/
def strContains (s pat : String) : Bool :=
  hasSubL s.data pat.data

/-- Characters of `hay` that follow the first occurrence of `pat`
(`none` when `pat` does not occur).  Used to model `urlparse`. -/
def afterSub : List Char → List Char → Option (List Char)
  | [], pat => if pat.isEmpty then some [] else none
  | hay@(_ :: rest), pat =>
    if startsWithL hay pat then some (hay.drop pat.length)
    else afterSub rest pat

/-- Characters before the first occurrence of `stop`. -/
def takeUntil (stop : Char) : List Char → List Char
  | [] => []
  | c :: cs => if c == stop then [] else c :: takeUntil stop cs

/-- Drops characters up to (excluding) the first `'/'`; empty when none. -/
def dropUntilSlash : List Char → List Char
  | [] => []
  | c :: cs => if c == '/' then c :: cs else dropUntilSlash cs

/-- Model of `os.path.basename`: the characters after the last `'/'`. -/
def basename (p : String) : String :=
  String.mk ((p.data.reverse.takeWhile (fun c => c != '/')).reverse)

/-- Model of `urlparse(u).path` for a URL that contains `"://"`: drop the
scheme, the netloc (up to the first slash), the query (after `'?'`) and the
fragment (after a `'#'`).  Only the basename of this path is ever used by
the program (the default display name of a remote artifact). -/
def urlPath (u : String) : String :=
  match afterSub u.data ("://".data) with
  | none => u
  | some rest =>
    let rest := takeUntil '#' rest
    let rest := takeUntil '?' rest
    String.mk (dropUntilSlash rest)

/-- Splits an emitted string at newline characters; models how a string
printed by `print` (or appended to the output file with a trailing newline)
contributes lines to the final text. -/
def splitNlAux : List Char → List Char → List String
  | acc, [] => [String.mk acc.reverse]
  | acc, c :: cs =>
    if c == '\n' then String.mk acc.reverse :: splitNlAux [] cs
    else splitNlAux (c :: acc) cs

/-- Lines of a sequence of emitted records/messages (each element of the
list is one `print` call or one file append, each newline-terminated). -/
def linesOut (msgs : List String) : List String :=
  msgs.flatMap (fun s => splitNlAux [] s.data)

/-! ### Data model -/

/-- Command-line algorithm choice (`--algorithm`), choices
`['all', 'sha1', 'sha256']`, default `'all'`. -/
inductive Alg : Type where
  | all : Alg
  | sha1 : Alg
  | sha256 : Alg
deriving DecidableEq

/-- Printable name of an algorithm choice, as it appears in messages. -/
def algName : Alg → String
  | Alg.all => "all"
  | Alg.sha1 => "sha1"
  | Alg.sha256 => "sha256"

/-- Output mode (`--output`), choices `['value', 'davis', 'prefetch',
'manifest']`, default `'prefetch'`. -/
inductive OutMode : Type where
  | value : OutMode
  | davis : OutMode
  | prefetch : OutMode
  | manifest : OutMode
deriving DecidableEq

/-- Values of the Python variable `davis_stage`: the strings `'beginning'`,
`'middle'`, `'end'` and `'all'` (the last two rendered here as `ending` and
`allFiles` because `end` is a Lean keyword). -/
inductive DavisStage : Type where
  | beginning : DavisStage
  | middle : DavisStage
  | ending : DavisStage
  | allFiles : DavisStage
deriving DecidableEq

/-- Parsed command-line arguments (the module-level `args` object).
`fnmatch.filter(filenames, args.pattern)` is modelled by carrying the
pattern as a Boolean predicate on filenames; glob-matching internals are
orthogonal to every claim. -/
structure Args : Type where
  source : String
  algorithm : Alg
  output : OutMode
  name : Option String
  url : Option String
  file_output : Option String
  recursive : Bool
  pattern : String → Bool
  verbose : Bool

/-- A local file as the runtime sees it: the chunk sequence successive
`f.read(4096)` calls return (the chunk boundaries are the world's choice),
and the size that `os.path.getsize` reports afterwards.  The two are
deliberately independent data: the reference system reads the size from
filesystem metadata, not from the bytes streamed. -/
structure LocalFile : Type where
  chunks : List (List Nat)
  statSize : Nat
deriving DecidableEq

/-- The Python exceptions the main loop's handlers distinguish (lines
216-226): `URLError` with a reason, `IOError` carrying the platform errno
(CPython attaches an errno to every OS-raised open/read failure at these
call sites), and the catch-all for any other exception. -/
inductive PyErr : Type where
  | urlError (reason : String) : PyErr
  | ioError (errno : Nat) : PyErr
  | otherExc : PyErr
deriving DecidableEq

/-- Outcome of `open(path, 'rb')` followed by the read loop and
`os.path.getsize` on a local path. -/
inductive LocalOutcome : Type where
  | ok (f : LocalFile) : LocalOutcome
  | err (e : PyErr) : LocalOutcome
deriving DecidableEq

/-- Outcome of `urlopen(url)` followed by the read loop. -/
inductive RemoteOutcome : Type where
  | ok (chunks : List (List Nat)) : RemoteOutcome
  | err (e : PyErr) : RemoteOutcome
deriving DecidableEq

/-!
A directory tree: one directory with its name, the plain files directly
inside it, and its subdirectories.  (A separate forest type keeps all
recursion over trees structural, hence kernel-computable.)
-/
mutual
inductive DirTree : Type where
  | node (dirname : String) (filenames : List String) (subdirs : DirForest) : DirTree
inductive DirForest : Type where
  | nil : DirForest
  | cons (t : DirTree) (ts : DirForest) : DirForest
end

/-- Name of a directory. -/
def DirTree.dirname : DirTree → String
  | DirTree.node d _ _ => d

/-- Files directly inside a directory. -/
def DirTree.filenames : DirTree → List String
  | DirTree.node _ fs _ => fs

/-- Subdirectories of a directory. -/
def DirTree.subdirs : DirTree → DirForest
  | DirTree.node _ _ ts => ts

/-- The external world a run interacts with: whether `os.path.isdir` holds
of the source (and if so the directory's contents), what opening/reading a
local path yields, and what fetching a URL yields. -/
structure World : Type where
  isDir : Option DirTree
  fs : String → LocalOutcome
  net : String → RemoteOutcome

/-- The `hashlib` accumulators, abstracted: each maps the full byte
sequence fed by the read loop to a hex digest string. -/
structure Hashers : Type where
  sha1hex : List Nat → String
  sha256hex : List Nat → String

/-- The dictionary `process_file` returns (lines 107-113).  The dictionary
literal in the source has exactly these five keys, for every artifact and
whatever the selected algorithm. -/
structure FileRecord : Type where
  name : String
  url : String
  size : Nat
  sha1 : String
  sha256 : String
deriving DecidableEq

/-- The algorithm-digest keys of the dictionary `process_file` returns:
the dict literal names `sha1` and `sha256` unconditionally (the function
does not even receive the algorithm selection). -/
def FileRecord.digestKeys (_ : FileRecord) : List String :=
  ["sha1", "sha256"]

/-! ### Digest streamer (`process_file`, lines 67-113) -/

/-- Chunks actually consumed by the read loop: it stops at the first empty
chunk (`if not chunk: break`). -/
def streamedChunks (chunks : List (List Nat)) : List (List Nat) :=
  chunks.takeWhile (fun c => !c.isEmpty)

/-- All bytes fed to both hash accumulators. -/
def streamBytes (chunks : List (List Nat)) : List Nat :=
  (streamedChunks chunks).flatten

/-- The running byte counter `size += len(chunk)` over the streamed chunks. -/
def streamSize (chunks : List (List Nat)) : Nat :=
  ((streamedChunks chunks).map List.length).sum

/-- The test `"://" in file_path` (line 69) deciding remote vs local. -/
def file_via_url (file_path : String) : Bool :=
  strContains file_path "://"

/-- Embedding of `process_file(file_path, file_name, file_url)`.  Returns
the verbose messages it prints (first component; they go to standard
output) and either the metadata dictionary or the exception that escaped
(second component).  `file_name`/`file_url` are `None` when the caller
passed no override. -/
def process_file (H : Hashers) (w : World) (verbose : Bool) (file_path : String)
    (file_name file_url : Option String) : List String × Except PyErr FileRecord :=
  let viaUrl := file_via_url file_path
  let log1 : List String :=
    if verbose then
      [if viaUrl then "File source is a url." else "File source is the filesystem."]
    else []
  let name0 := if file_name = some "" then some "REPLACEME" else file_name
  let log2 : List String :=
    if file_name = some "" ∧ verbose = true then
      ["Name provided was an empty string, using REPLACEME instead."]
    else []
  let url0 := if file_url = some "" then some "http://REPLACEME" else file_url
  let log3 : List String :=
    if file_url = some "" ∧ verbose = true then
      ["URL provided was an empty string, using http://REPLACEME instead."]
    else []
  let logs := log1 ++ log2 ++ log3
  if viaUrl then
    let name := name0.getD (basename (urlPath file_path))
    let url := url0.getD file_path
    match w.net file_path with
    | RemoteOutcome.err e => (logs, Except.error e)
    | RemoteOutcome.ok chunks =>
      (logs, Except.ok
        { name := name, url := url, size := streamSize chunks,
          sha1 := H.sha1hex (streamBytes chunks),
          sha256 := H.sha256hex (streamBytes chunks) })
  else
    let name := name0.getD (basename file_path)
    let url := url0.getD "http://REPLACEME"
    match w.fs file_path with
    | LocalOutcome.err e => (logs, Except.error e)
    | LocalOutcome.ok f =>
      (logs, Except.ok
        { name := name, url := url, size := f.statSize,
          sha1 := H.sha1hex (streamBytes f.chunks),
          sha256 := H.sha256hex (streamBytes f.chunks) })

/-! ### Format renderers (lines 115-156) -/

/-- `manifest_output` (lines 116-121).  The source reads the module-level
`args.algorithm` rather than its parameter; at its only call site the
parameter is `args.algorithm`, so the embedding uses the parameter. -/
def manifest_output (algorithm : Alg) : String :=
  if algorithm = Alg.sha256 then "name={name} sha256={sha256} size={size} url={url}/{name}"
  else if algorithm = Alg.sha1 then "name={name} sha1={sha1} size={size} url={url}/{name}"
  else "name={name} sha1={sha1} sha256={sha256} size={size} url={url}/{name}"

/-- `prefetch_output` (lines 123-128); same remark about `args.algorithm`
as for `manifest_output`. -/
def prefetch_output (algorithm : Alg) : String :=
  if algorithm = Alg.sha256 then "prefetch {name} size:{size} {url} sha256:{sha256}"
  else if algorithm = Alg.sha1 then "prefetch {name} sha1:{sha1} size:{size} {url}"
  else "prefetch {name} sha1:{sha1} size:{size} {url} sha256:{sha256}"

/-- `davis_output` (lines 130-148): an unsupported algorithm prints to
stderr and exits 2, modelled as `Except.error` carrying the message. -/
def davis_output (algorithm : Alg) (stage : DavisStage) : Except String String :=
  if algorithm ≠ Alg.all ∧ algorithm ≠ Alg.sha1 then
    Except.error ("Algorithm " ++ algName algorithm ++ " is not supported in davis downloads")
  else
    match stage with
    | DavisStage.middle =>
      Except.ok "add prefetch item name={name} sha1={sha1} size={size} url={url}"
    | DavisStage.beginning =>
      Except.ok "begin prefetch block"
    | DavisStage.ending =>
      Except.ok "add prefetch item name={name} sha1={sha1} size={size} url={url}\ncollect prefetch items\nend prefetch block"
    | DavisStage.allFiles =>
      Except.ok "begin prefetch block\nadd prefetch item name={name} sha1={sha1} size={size} url={url}\ncollect prefetch items\nend prefetch block"

/-- `value_output` (lines 150-156): with no concrete algorithm it prints to
stderr and exits 2, modelled as `Except.error` carrying the message. -/
def value_output (algorithm : Alg) : Except String String :=
  if algorithm = Alg.sha1 then Except.ok "{sha1}"
  else if algorithm = Alg.sha256 then Except.ok "{sha256}"
  else Except.error "You must specify a hash algorithm to use"

/-- One pass of `output.format(name=..., size=..., url=..., sha1=...,
sha256=...)` over the template characters: placeholders are substituted and
the substituted text is not rescanned, exactly as Python `str.format`
behaves.  Structural fuel (`Nat`) keeps the definition kernel-computable;
every call consumes at least one template character, so a fuel equal to the
template length suffices. -/
def substFmtAux (r : FileRecord) : Nat → List Char → List Char
  | 0, _ => []
  | _ + 1, [] => []
  | fuel + 1, c :: cs =>
    if startsWithL (c :: cs) ("{name}".data) then r.name.data ++ substFmtAux r fuel (cs.drop 5)
    else if startsWithL (c :: cs) ("{size}".data) then (toString r.size).data ++ substFmtAux r fuel (cs.drop 5)
    else if startsWithL (c :: cs) ("{url}".data) then r.url.data ++ substFmtAux r fuel (cs.drop 4)
    else if startsWithL (c :: cs) ("{sha1}".data) then r.sha1.data ++ substFmtAux r fuel (cs.drop 5)
    else if startsWithL (c :: cs) ("{sha256}".data) then r.sha256.data ++ substFmtAux r fuel (cs.drop 7)
    else c :: substFmtAux r fuel cs

/-- Renders one template against one metadata record (lines 245-255). -/
def renderRecord (tmpl : String) (r : FileRecord) : String :=
  String.mk (substFmtAux r tmpl.data.length tmpl.data)

/-! ### Source enumerator (lines 190-210) -/

/-- `os.path.join` on the POSIX convention the walk produces. -/
def osJoin (a b : String) : String := a ++ "/" ++ b

/-!
`os.walk(args.source)` combined with the pruning loop
`while len(dirnames) > 0: dirnames.pop()` (lines 194-196): the walk is
top-down, and when `prune` is true (`args.recursive` false) the dirnames
list is emptied at every visited directory, so the walk never descends.
Each visited directory contributes its accumulated path and its plain
files, in traversal order.
-/
mutual
def walkFrom (prune : Bool) (base : String) : DirTree → List (String × List String)
  | DirTree.node _ files subs =>
    (base, files) :: (if prune then [] else walkSubs prune base subs)
def walkSubs (prune : Bool) (base : String) : DirForest → List (String × List String)
  | DirForest.nil => []
  | DirForest.cons t ts =>
    walkFrom prune (osJoin base (DirTree.dirname t)) t ++ walkSubs prune base ts
end

/-- The `matching_files` list a directory source produces (lines 194-198):
for each visited directory, the filenames matching the pattern, joined to
the directory's path, in walk order. -/
def matching_files (args : Args) (t : DirTree) : List String :=
  (walkFrom (!args.recursive) args.source t).flatMap
    (fun pr => (pr.2.filter args.pattern).map (osJoin pr.1))

/-! ### Main processing loop (lines 185-257) -/

/-- Observable outcome of a run: the strings printed to standard output
(one list entry per `print` call; entries may contain internal newlines),
the strings printed to standard error, the lines appended to the
`--file_output` sink, the paths whose artifacts were opened/read/hashed
(i.e. for which `process_file` performed I/O), and the process exit
status. -/
structure RunResult : Type where
  stdout : List String
  stderr : List String
  fileOut : List String
  processed : List String
  exit : Nat
deriving DecidableEq

/-- Mutable accumulators of the loop, before the exit status is known. -/
structure Outs : Type where
  stdout : List String
  stderr : List String
  fileOut : List String
  processed : List String
deriving DecidableEq

/-- Closes a run with the given exit status. -/
def finishRun (acc : Outs) (code : Nat) : RunResult :=
  { stdout := acc.stdout, stderr := acc.stderr, fileOut := acc.fileOut,
    processed := acc.processed, exit := code }

/-- An unhandled `NameError` reading the named variable: CPython prints a
traceback to standard error (abbreviated here to its final line) and the
process exits with status 1. -/
def nameErrorHalt (acc : Outs) (var : String) : RunResult :=
  finishRun { acc with stderr := acc.stderr ++ ["NameError: name " ++ var ++ " is not defined"] } 1

/-- Stand-in for `os.strerror(errno)` in the IOError handler message. -/
def strerror (errno : Nat) : String := "errno " ++ toString errno

/-- Outcome of one loop iteration: either the run halts (error or crash),
or it continues with updated accumulators and `davis_stage`. -/
inductive IterOut : Type where
  | halt (r : RunResult) : IterOut
  | next (acc : Outs) (stage : Option DavisStage) : IterOut

/-- The verbose progress message of line 214, which reads `num_matches`;
`none` means the read raises `NameError` (the variable is only assigned on
the directory branch). -/
def progressLog (verbose : Bool) (num_matches : Option Nat) (mf : String) (counter : Nat) :
    Option (List String) :=
  if verbose then
    match num_matches with
    | none => none
    | some nm => some ["Processing " ++ mf ++ "...(" ++ toString counter ++ " of " ++ toString nm ++ ")"]
  else some []

/-- Emission of one rendered record (lines 242-255): append to the
`--file_output` sink when it is set (with a verbose notice on standard
output), else print to standard output. -/
def emitOut (args : Args) (acc : Outs) (r : FileRecord) (tmpl : String)
    (stage2 : Option DavisStage) : IterOut :=
  match args.file_output with
  | some fo =>
    let acc2 := if args.verbose then { acc with stdout := acc.stdout ++ ["Writing output to " ++ fo] } else acc
    IterOut.next { acc2 with fileOut := acc2.fileOut ++ [renderRecord tmpl r] } stage2
  | none =>
    IterOut.next { acc with stdout := acc.stdout ++ [renderRecord tmpl r] } stage2

/-- One iteration of the `for matching_file in matching_files` loop (lines
213-257): the verbose progress message, `process_file` under the three
exception handlers, template selection for the four output modes (the
davis branch reads `num_matches` and rewrites `davis_stage`), and the
emission of the rendered record. -/
def loopIter (H : Hashers) (w : World) (args : Args) (num_matches : Option Nat)
    (mf : String) (counter : Nat) (stage : Option DavisStage) (acc : Outs) : IterOut :=
  match progressLog args.verbose num_matches mf counter with
  | none => IterOut.halt (nameErrorHalt acc "num_matches")
  | some vlog =>
    let pf := process_file H w args.verbose mf args.name args.url
    let acc := { acc with stdout := acc.stdout ++ vlog ++ pf.1, processed := acc.processed ++ [mf] }
    match pf.2 with
    | Except.error (PyErr.urlError reason) =>
      IterOut.halt (finishRun { acc with stderr := acc.stderr ++ ["Error processing " ++ args.source ++ ": " ++ reason] } 2)
    | Except.error (PyErr.ioError e) =>
      IterOut.halt (finishRun { acc with stderr := acc.stderr ++ ["Error processing " ++ args.source ++ ": " ++ strerror e] } e)
    | Except.error PyErr.otherExc =>
      IterOut.halt (finishRun { acc with stderr := acc.stderr ++ ["Error processing " ++ args.source] } 2)
    | Except.ok r =>
      match args.output with
      | OutMode.manifest => emitOut args acc r (manifest_output args.algorithm) stage
      | OutMode.value =>
        match value_output args.algorithm with
        | Except.error msg => IterOut.halt (finishRun { acc with stderr := acc.stderr ++ [msg] } 2)
        | Except.ok tmpl => emitOut args acc r tmpl stage
      | OutMode.davis =>
        match num_matches with
        | none => IterOut.halt (nameErrorHalt acc "num_matches")
        | some nm =>
          let stage1 := if counter = nm then some DavisStage.ending else stage
          match stage1 with
          | none => IterOut.halt (nameErrorHalt acc "davis_stage")
          | some st =>
            match davis_output args.algorithm st with
            | Except.error msg => IterOut.halt (finishRun { acc with stderr := acc.stderr ++ [msg] } 2)
            | Except.ok tmpl =>
              emitOut args acc r tmpl (if st = DavisStage.beginning then some DavisStage.middle else stage1)
      | OutMode.prefetch => emitOut args acc r (prefetch_output args.algorithm) stage

/-- The processing loop over the matching files, with `counter` starting at
1 and incremented at the end of each iteration (line 257); falling off the
end of the script exits with status 0. -/
def runLoop (H : Hashers) (w : World) (args : Args) (num_matches : Option Nat) :
    List String → Nat → Option DavisStage → Outs → RunResult
  | [], _, _, acc => finishRun acc 0
  | mf :: rest, counter, stage, acc =>
    match loopIter H w args num_matches mf counter stage acc with
    | IterOut.halt r => r
    | IterOut.next acc2 stage2 => runLoop H w args num_matches rest (counter + 1) stage2 acc2

/-- The whole run after argument parsing (lines 185-257): the directory
branch builds `matching_files`, assigns `num_matches` and (for davis)
`davis_stage = 'beginning'`, erroring out when no file matches; the
single-artifact branch enqueues the source itself, assigns (for davis)
`davis_stage = 'all'`, and leaves `num_matches` unassigned. -/
def runMain (H : Hashers) (w : World) (args : Args) : RunResult :=
  match w.isDir with
  | some t =>
    let log0 : List String := if args.verbose then [args.source ++ " is a directory."] else []
    let stage0 : Option DavisStage :=
      if args.output = OutMode.davis then some DavisStage.beginning else none
    let mfiles := matching_files args t
    let nm := mfiles.length
    if nm = 0 then
      finishRun { stdout := log0,
                  stderr := ["No matching files found in " ++ args.source ++ "."],
                  fileOut := [], processed := [] } 2
    else
      let log1 : List String := if args.verbose then [toString nm ++ " matching file(s) found."] else []
      runLoop H w args (some nm) mfiles 1 stage0
        { stdout := log0 ++ log1, stderr := [], fileOut := [], processed := [] }
  | none =>
    let stage0 : Option DavisStage :=
      if args.output = OutMode.davis then some DavisStage.allFiles else none
    runLoop H w args none [args.source] 1 stage0
      { stdout := [], stderr := [], fileOut := [], processed := [] }

/-! ### Claim-side vocabulary -/

/-- Digest keys demanded by claim C7's words ("only a sha1 entry under
selection sha1, only a sha256 entry under selection sha256, both under
selection both").  This definition follows the claim, not the code, and is
compared against the keys the code actually produces. -/
def requiredDigestKeys : Alg → List String
  | Alg.sha1 => ["sha1"]
  | Alg.sha256 => ["sha256"]
  | Alg.all => ["sha1", "sha256"]

/-- Membership of a tree in a forest. -/
inductive ForestMem : DirTree → DirForest → Prop where
  | head (t : DirTree) (ts : DirForest) : ForestMem t (DirForest.cons t ts)
  | tail (t t' : DirTree) (ts : DirForest) : ForestMem t ts → ForestMem t (DirForest.cons t' ts)

/-- `FileAt t dirs f`: descending from the root `t` through the
subdirectories named by `dirs`, the plain file `f` lies in the directory
reached.  `dirs = []` means `f` sits directly in the root. -/
inductive FileAt : DirTree → List String → String → Prop where
  | here (d : String) (files : List String) (subs : DirForest) (f : String) :
      f ∈ files → FileAt (DirTree.node d files subs) [] f
  | there (d : String) (files : List String) (subs : DirForest) (t : DirTree)
      (p : List String) (f : String) :
      ForestMem t subs → FileAt t p f →
      FileAt (DirTree.node d files subs) (DirTree.dirname t :: p) f

/-- Relation between the outcomes of one loop iteration run with and
without the verbose flag: the control flow agrees and the file-output sink
receives the same content. -/
def IterRel : IterOut → IterOut → Prop
  | IterOut.halt r1, IterOut.halt r2 => r1.fileOut = r2.fileOut
  | IterOut.next a1 s1, IterOut.next a2 s2 => a1.fileOut = a2.fileOut ∧ s1 = s2
  | _, _ => False

/-! ### Concrete fixtures used by counterexamples and witnesses -/

/-- Abstract digest functions returning fixed hex strings. -/
def hashFix : Hashers := ⟨fun _ => "H1", fun _ => "H2"⟩

/-- A two-byte local file (content "hi") whose stat size is 2. -/
def fileFix : LocalFile := ⟨[[104, 105]], 2⟩

/-- A filesystem on which every open/read succeeds with `fileFix`. -/
def fsAllOk : String → LocalOutcome := fun _ => LocalOutcome.ok fileFix

/-- A network on which every fetch raises. -/
def netNone : String → RemoteOutcome := fun _ => RemoteOutcome.err PyErr.otherExc

/-- A directory holding exactly one matching file. -/
def dirTree1 : DirTree := DirTree.node "top" ["a.txt"] DirForest.nil

/-- A directory holding exactly three matching files. -/
def dirTree3 : DirTree := DirTree.node "top" ["a.txt", "b.txt", "c.txt"] DirForest.nil

/-- A root directory with one file beside a subdirectory holding another. -/
def dirNested : DirTree :=
  DirTree.node "top" ["r.txt"] (DirForest.cons (DirTree.node "sub" ["s.txt"] DirForest.nil) DirForest.nil)

/-- World: source is the one-file directory. -/
def worldDir1 : World := ⟨some dirTree1, fsAllOk, netNone⟩

/-- World: source is the three-file directory. -/
def worldDir3 : World := ⟨some dirTree3, fsAllOk, netNone⟩

/-- World: source is a single local artifact. -/
def worldSingle : World := ⟨none, fsAllOk, netNone⟩

/-- World: source is a single remote artifact served in chunks of 2 and 1
bytes. -/
def worldRemote : World := ⟨none, fsAllOk, fun _ => RemoteOutcome.ok [[104, 105], [33]]⟩

/-- World: the single local artifact fails to open with errno 13
(permission denied). -/
def worldDenied : World := ⟨none, fun _ => LocalOutcome.err (PyErr.ioError 13), netNone⟩

/-- Arguments of a davis run on `srcdir` with algorithm sha1, an
all-matching pattern and everything else defaulted. -/
def argsDavis : Args :=
  ⟨"srcdir", Alg.sha1, OutMode.davis, none, none, none, false, fun _ => true, false⟩

/-- Arguments of a value-mode run with the default algorithm `all`. -/
def argsValueAll : Args :=
  { argsDavis with output := OutMode.value, algorithm := Alg.all }

/-- Arguments of a quiet prefetch run. -/
def argsPrefetch : Args :=
  { argsDavis with output := OutMode.prefetch }

/-- Arguments of a prefetch run writing to an output file. -/
def argsFileOut : Args :=
  { argsDavis with output := OutMode.prefetch, file_output := some "out.txt" }

/-- Empty loop accumulators. -/
def emptyOuts : Outs := ⟨[], [], [], []⟩

/-- The metadata record the fixtures produce for a local artifact named
`hello.txt`. -/
def recLocal : FileRecord := ⟨"hello.txt", "http://REPLACEME", 2, "H1", "H2"⟩

/-- The metadata record the fixtures produce for the remote artifact
`http://h/f.bin`. -/
def recRemote : FileRecord := ⟨"f.bin", "http://h/f.bin", 3, "H1", "H2"⟩

/-! ### Characterisation lemmas for `process_file` -/

/-- Local artifact, successful open/read: the returned dictionary, with the
size taken from `os.path.getsize` and both digests over the streamed
bytes. -/
theorem process_file_snd_local_ok (H : Hashers) (w : World) (v : Bool) (p : String)
    (n u : Option String) (f : LocalFile)
    (hvia : file_via_url p = false) (hfs : w.fs p = LocalOutcome.ok f) :
    (process_file H w v p n u).2 = Except.ok
      { name := (if n = some "" then some "REPLACEME" else n).getD (basename p),
        url := (if u = some "" then some "http://REPLACEME" else u).getD "http://REPLACEME",
        size := f.statSize,
        sha1 := H.sha1hex (streamBytes f.chunks),
        sha256 := H.sha256hex (streamBytes f.chunks) } := by
  simp [process_file, hvia, hfs]

/-- Local artifact, failing open/read: the exception propagates. -/
theorem process_file_snd_local_err (H : Hashers) (w : World) (v : Bool) (p : String)
    (n u : Option String) (e : PyErr)
    (hvia : file_via_url p = false) (hfs : w.fs p = LocalOutcome.err e) :
    (process_file H w v p n u).2 = Except.error e := by
  simp [process_file, hvia, hfs]

/-- Remote artifact, successful fetch: the returned dictionary, with the
size counted from the streamed chunks and both digests over the streamed
bytes. -/
theorem process_file_snd_remote_ok (H : Hashers) (w : World) (v : Bool) (p : String)
    (n u : Option String) (chunks : List (List Nat))
    (hvia : file_via_url p = true) (hnet : w.net p = RemoteOutcome.ok chunks) :
    (process_file H w v p n u).2 = Except.ok
      { name := (if n = some "" then some "REPLACEME" else n).getD (basename (urlPath p)),
        url := (if u = some "" then some "http://REPLACEME" else u).getD p,
        size := streamSize chunks,
        sha1 := H.sha1hex (streamBytes chunks),
        sha256 := H.sha256hex (streamBytes chunks) } := by
  simp [process_file, hvia, hnet]

/-- Remote artifact, failing fetch: the exception propagates. -/
theorem process_file_snd_remote_err (H : Hashers) (w : World) (v : Bool) (p : String)
    (n u : Option String) (e : PyErr)
    (hvia : file_via_url p = true) (hnet : w.net p = RemoteOutcome.err e) :
    (process_file H w v p n u).2 = Except.error e := by
  simp [process_file, hvia, hnet]

/-- Without the verbose flag `process_file` prints nothing. -/
theorem process_file_fst_quiet (H : Hashers) (w : World) (p : String) (n u : Option String) :
    (process_file H w false p n u).1 = [] := by
  cases hvia : file_via_url p
  · cases hfs : w.fs p <;> simp [process_file, hvia, hfs]
  · cases hnet : w.net p <;> simp [process_file, hvia, hnet]

/-- The result of `process_file` (as opposed to its verbose chatter) does
not depend on the verbose flag. -/
theorem process_file_snd_verbose (H : Hashers) (w : World) (p : String) (n u : Option String) :
    (process_file H w true p n u).2 = (process_file H w false p n u).2 := by
  cases hvia : file_via_url p
  · cases hfs : w.fs p <;> simp [process_file, hvia, hfs]
  · cases hnet : w.net p <;> simp [process_file, hvia, hnet]

/-! ### C5 — size reporting -/

/-- C5 (confirmed).  For a local artifact the reported size is the
filesystem metadata size (`os.path.getsize` after the stream completes),
not the count of bytes read; for a remote artifact it is the sum of the
lengths of the chunks actually streamed. -/
theorem c5_size_reporting (H : Hashers) (w : World) (v : Bool) (n u : Option String) (p : String) :
    (∀ f r, file_via_url p = false → w.fs p = LocalOutcome.ok f →
      (process_file H w v p n u).2 = Except.ok r → r.size = f.statSize) ∧
    (∀ chunks r, file_via_url p = true → w.net p = RemoteOutcome.ok chunks →
      (process_file H w v p n u).2 = Except.ok r → r.size = streamSize chunks) := by
  constructor
  · intro f r hvia hfs hok
    rw [process_file_snd_local_ok H w v p n u f hvia hfs] at hok
    cases hok
    rfl
  · intro chunks r hvia hnet hok
    rw [process_file_snd_remote_ok H w v p n u chunks hvia hnet] at hok
    cases hok
    rfl

/-- Witness for C5 at concrete inputs: a local artifact whose stat size is
2, and a remote artifact streamed as chunks of 2 and 1 bytes. -/
theorem c5_size_reporting_witness :
    file_via_url "hello.txt" = false ∧ worldSingle.fs "hello.txt" = LocalOutcome.ok fileFix ∧
    (process_file hashFix worldSingle false "hello.txt" none none).2 = Except.ok recLocal ∧
    recLocal.size = fileFix.statSize ∧
    file_via_url "http://h/f.bin" = true ∧
    (process_file hashFix worldRemote false "http://h/f.bin" none none).2 = Except.ok recRemote ∧
    recRemote.size = streamSize [[104, 105], [33]] :=
  ⟨rfl, rfl, rfl, (c5_size_reporting hashFix worldSingle false none none "hello.txt").1
      fileFix recLocal rfl rfl rfl,
   rfl, rfl, (c5_size_reporting hashFix worldRemote false none none "http://h/f.bin").2
      [[104, 105], [33]] recRemote rfl rfl rfl⟩

/-! ### C7 — digest map keys -/

/-- C7 counterexample.  Under algorithm selection sha1 the produced
metadata still carries a sha256 entry: `process_file` does not receive the
selection at all, and its dictionary literal names both `sha1` and
`sha256` unconditionally, so its digest keys are never
`requiredDigestKeys Alg.sha1`. -/
theorem c7_digest_keys_counterexample :
    (process_file hashFix worldSingle false "hello.txt" none none).2 = Except.ok recLocal ∧
    FileRecord.digestKeys recLocal = ["sha1", "sha256"] ∧
    FileRecord.digestKeys recLocal ≠ requiredDigestKeys Alg.sha1 :=
  ⟨rfl, by decide, by decide⟩

/-- C7 amended (proved).  The produced metadata always contains both a
sha1 and a sha256 entry, each computed over the full streamed byte
sequence, whatever algorithm was selected (the renderer, not the metadata,
restricts what is emitted). -/
theorem c7_both_digests_always (H : Hashers) (w : World) (v : Bool) (n u : Option String)
    (p : String) :
    (∀ f r, file_via_url p = false → w.fs p = LocalOutcome.ok f →
      (process_file H w v p n u).2 = Except.ok r →
      r.sha1 = H.sha1hex (streamBytes f.chunks) ∧ r.sha256 = H.sha256hex (streamBytes f.chunks) ∧
      FileRecord.digestKeys r = ["sha1", "sha256"]) ∧
    (∀ chunks r, file_via_url p = true → w.net p = RemoteOutcome.ok chunks →
      (process_file H w v p n u).2 = Except.ok r →
      r.sha1 = H.sha1hex (streamBytes chunks) ∧ r.sha256 = H.sha256hex (streamBytes chunks) ∧
      FileRecord.digestKeys r = ["sha1", "sha256"]) := by
  constructor
  · intro f r hvia hfs hok
    rw [process_file_snd_local_ok H w v p n u f hvia hfs] at hok
    cases hok
    exact ⟨rfl, rfl, rfl⟩
  · intro chunks r hvia hnet hok
    rw [process_file_snd_remote_ok H w v p n u chunks hvia hnet] at hok
    cases hok
    exact ⟨rfl, rfl, rfl⟩

/-- Witness for the amended C7 at concrete local and remote artifacts. -/
theorem c7_both_digests_always_witness :
    file_via_url "hello.txt" = false ∧ worldSingle.fs "hello.txt" = LocalOutcome.ok fileFix ∧
    (process_file hashFix worldSingle false "hello.txt" none none).2 = Except.ok recLocal ∧
    (recLocal.sha1 = hashFix.sha1hex (streamBytes fileFix.chunks) ∧
     recLocal.sha256 = hashFix.sha256hex (streamBytes fileFix.chunks) ∧
     FileRecord.digestKeys recLocal = ["sha1", "sha256"]) :=
  ⟨rfl, rfl, rfl,
   (c7_both_digests_always hashFix worldSingle false none none "hello.txt").1
     fileFix recLocal rfl rfl rfl⟩

/-! ### C8 — empty-string overrides -/

/-- C8 (confirmed).  An explicit empty-string name override yields the
literal name `REPLACEME`, and an explicit empty-string url override yields
the literal url `http://REPLACEME`, in the metadata every rendered record
is formatted from; an empty string never reaches those fields. -/
theorem c8_empty_overrides (H : Hashers) (w : World) (v : Bool) (p : String)
    (n u : Option String) :
    (∀ r, (process_file H w v p (some "") u).2 = Except.ok r → r.name = "REPLACEME") ∧
    (∀ r, (process_file H w v p n (some "")).2 = Except.ok r → r.url = "http://REPLACEME") := by
  constructor
  · intro r hok
    cases hvia : file_via_url p
    · cases hfs : w.fs p with
      | ok f =>
        rw [process_file_snd_local_ok H w v p (some "") u f hvia hfs] at hok
        cases hok
        rfl
      | err e =>
        rw [process_file_snd_local_err H w v p (some "") u e hvia hfs] at hok
        exact Except.noConfusion hok
    · cases hnet : w.net p with
      | ok chunks =>
        rw [process_file_snd_remote_ok H w v p (some "") u chunks hvia hnet] at hok
        cases hok
        rfl
      | err e =>
        rw [process_file_snd_remote_err H w v p (some "") u e hvia hnet] at hok
        exact Except.noConfusion hok
  · intro r hok
    cases hvia : file_via_url p
    · cases hfs : w.fs p with
      | ok f =>
        rw [process_file_snd_local_ok H w v p n (some "") f hvia hfs] at hok
        cases hok
        rfl
      | err e =>
        rw [process_file_snd_local_err H w v p n (some "") e hvia hfs] at hok
        exact Except.noConfusion hok
    · cases hnet : w.net p with
      | ok chunks =>
        rw [process_file_snd_remote_ok H w v p n (some "") chunks hvia hnet] at hok
        cases hok
        rfl
      | err e =>
        rw [process_file_snd_remote_err H w v p n (some "") e hvia hnet] at hok
        exact Except.noConfusion hok

/-- Witness for C8: empty-string overrides on a concrete local artifact. -/
theorem c8_empty_overrides_witness :
    (process_file hashFix worldSingle false "hello.txt" (some "") (some "")).2 =
      Except.ok ⟨"REPLACEME", "http://REPLACEME", 2, "H1", "H2"⟩ ∧
    (⟨"REPLACEME", "http://REPLACEME", 2, "H1", "H2"⟩ : FileRecord).name = "REPLACEME" ∧
    (⟨"REPLACEME", "http://REPLACEME", 2, "H1", "H2"⟩ : FileRecord).url = "http://REPLACEME" :=
  ⟨rfl,
   (c8_empty_overrides hashFix worldSingle false "hello.txt" (some "") (some "")).1 _ rfl,
   (c8_empty_overrides hashFix worldSingle false "hello.txt" (some "") (some "")).2 _ rfl⟩

/-! ### C1 — davis block over three artifacts -/

/-- C1 evaluation at the failing input (three matching files, davis mode,
algorithm sha1).  The run emits exactly one `begin prefetch block`, one
`collect prefetch items` and one `end prefetch block` line, in the claimed
overall order, but only 2 (not 3) `add prefetch item` lines: the
`'beginning'` stage renders the framing line alone, silently dropping the
first artifact's item line even though its bytes were hashed. -/
theorem c1_davis_three_files_eval :
    (runMain hashFix worldDir3 argsDavis).stdout =
      ["begin prefetch block",
       "add prefetch item name=b.txt sha1=H1 size=2 url=http://REPLACEME",
       "add prefetch item name=c.txt sha1=H1 size=2 url=http://REPLACEME\ncollect prefetch items\nend prefetch block"] ∧
    (runMain hashFix worldDir3 argsDavis).processed =
      ["srcdir/a.txt", "srcdir/b.txt", "srcdir/c.txt"] ∧
    (linesOut (runMain hashFix worldDir3 argsDavis).stdout).countP
      (fun l => l == "begin prefetch block") = 1 ∧
    (linesOut (runMain hashFix worldDir3 argsDavis).stdout).countP
      (fun l => l == "collect prefetch items") = 1 ∧
    (linesOut (runMain hashFix worldDir3 argsDavis).stdout).countP
      (fun l => l == "end prefetch block") = 1 ∧
    (linesOut (runMain hashFix worldDir3 argsDavis).stdout).countP
      (fun l => startsWithL l.data ("add prefetch item".data)) = 2 := by
  refine ⟨by decide, by decide, by decide, by decide, by decide, by decide⟩

/-! ### C2 — davis block over one artifact -/

/-- C2 evaluation at the failing inputs.  A davis run over a directory
with exactly one matching file emits the item line and the two closing
lines but no `begin prefetch block` line (`counter == num_matches` rewrites
the stage from `'beginning'` to `'end'` before anything is rendered); and a
davis run over a single non-directory artifact crashes with an unhandled
`NameError` on `num_matches` (exit status 1) before rendering anything at
all. -/
theorem c2_davis_one_artifact_eval :
    (runMain hashFix worldDir1 argsDavis).stdout =
      ["add prefetch item name=a.txt sha1=H1 size=2 url=http://REPLACEME\ncollect prefetch items\nend prefetch block"] ∧
    ¬ "begin prefetch block" ∈ linesOut (runMain hashFix worldDir1 argsDavis).stdout ∧
    runMain hashFix worldSingle argsDavis =
      ⟨[], ["NameError: name num_matches is not defined"], [], ["srcdir"], 1⟩ := by
  refine ⟨by decide, by decide, by decide⟩

/-! ### C3 — value mode with algorithm `all` -/

/-- C3 counterexample.  A value-mode run with the default algorithm `all`
does exit with status 2 and emits no record, but only after the first
artifact has been opened, read and hashed: the processed list is not
empty, refuting "no file or network I/O occurs before the rejection". -/
theorem c3_value_all_counterexample :
    runMain hashFix worldSingle argsValueAll =
      ⟨[], ["You must specify a hash algorithm to use"], [], ["srcdir"], 2⟩ ∧
    (runMain hashFix worldSingle argsValueAll).processed ≠ [] := by
  refine ⟨by decide, by decide⟩

/-- C3 amended (proved).  A value-mode run with algorithm `all` whose
first artifact processes successfully is rejected at the first rendering
attempt with exit status 2 and the rejection message on standard error:
the first artifact has already been opened, read and hashed, and no record
is emitted to standard output or the file sink. -/
theorem c3_value_all_first_render_reject (H : Hashers) (w : World) (args : Args)
    (nmOpt : Option Nat) (mf : String) (rest : List String) (counter : Nat)
    (stage : Option DavisStage) (acc : Outs) (r : FileRecord)
    (ho : args.output = OutMode.value) (ha : args.algorithm = Alg.all)
    (hv : args.verbose = false)
    (hok : (process_file H w args.verbose mf args.name args.url).2 = Except.ok r) :
    runLoop H w args nmOpt (mf :: rest) counter stage acc =
      finishRun { acc with processed := acc.processed ++ [mf],
                           stderr := acc.stderr ++ ["You must specify a hash algorithm to use"] } 2 := by
  rw [hv] at hok
  simp [runLoop, loopIter, progressLog, hv, ho, ha, hok, process_file_fst_quiet, value_output,
    finishRun]

/-- Witness for the amended C3 at a concrete single-artifact run. -/
theorem c3_value_all_first_render_reject_witness :
    argsValueAll.output = OutMode.value ∧ argsValueAll.algorithm = Alg.all ∧
    argsValueAll.verbose = false ∧
    (process_file hashFix worldSingle argsValueAll.verbose "srcdir" argsValueAll.name
      argsValueAll.url).2 = Except.ok ⟨"srcdir", "http://REPLACEME", 2, "H1", "H2"⟩ ∧
    runLoop hashFix worldSingle argsValueAll none ["srcdir"] 1 none emptyOuts =
      finishRun { emptyOuts with processed := emptyOuts.processed ++ ["srcdir"],
                                 stderr := emptyOuts.stderr ++ ["You must specify a hash algorithm to use"] } 2 :=
  ⟨rfl, rfl, rfl, rfl,
   c3_value_all_first_render_reject hashFix worldSingle argsValueAll none "srcdir" [] 1 none
     emptyOuts ⟨"srcdir", "http://REPLACEME", 2, "H1", "H2"⟩ rfl rfl rfl rfl⟩

/-! ### C4 — verbose single-source runs crash on `num_matches` -/

/-- C4 (confirmed).  Whenever the source is not a directory and the
verbose flag is set, the first loop iteration's progress message reads
`num_matches`, which only the directory branch assigns, so the run dies
with an unhandled `NameError` (exit status 1) before any artifact is
opened, read or hashed and before any record is rendered: nothing reaches
standard output, the file sink stays empty, and no path is processed. -/
theorem c4_verbose_single_source_nameerror (H : Hashers) (w : World) (args : Args)
    (hd : w.isDir = none) (hv : args.verbose = true) :
    runMain H w args =
      ⟨[], ["NameError: name num_matches is not defined"], [], [], 1⟩ := by
  simp [runMain, hd, runLoop, loopIter, progressLog, hv, nameErrorHalt, finishRun]

/-- Witness for C4: a concrete verbose run on a single local file. -/
theorem c4_verbose_single_source_nameerror_witness :
    worldSingle.isDir = none ∧
    ({ argsPrefetch with verbose := true } : Args).verbose = true ∧
    runMain hashFix worldSingle { argsPrefetch with verbose := true } =
      ⟨[], ["NameError: name num_matches is not defined"], [], [], 1⟩ :=
  ⟨rfl, rfl,
   c4_verbose_single_source_nameerror hashFix worldSingle
     { argsPrefetch with verbose := true } rfl rfl⟩

/-! ### C9 — local I/O failures exit with the native errno -/

/-- C9 (confirmed).  When processing an artifact raises a local I/O error
(`IOError` from open/read with the platform errno attached, as CPython
guarantees for OS-raised failures at these call sites), the run exits with
exactly that errno: the handler at lines 221-223 calls
`sys.exit(ioex.errno)`.  The hypothesis on `num_matches` only excludes the
independent verbose `NameError` crash of C4, which would preempt the
processing call itself. -/
theorem c9_local_ioerror_exit (H : Hashers) (w : World) (args : Args)
    (nmOpt : Option Nat) (mf : String) (rest : List String) (counter : Nat)
    (stage : Option DavisStage) (acc : Outs) (e : Nat)
    (hv : args.verbose = false ∨ ∃ nm, nmOpt = some nm)
    (herr : (process_file H w args.verbose mf args.name args.url).2 =
      Except.error (PyErr.ioError e)) :
    (runLoop H w args nmOpt (mf :: rest) counter stage acc).exit = e := by
  rcases hv with hv | ⟨nm, rfl⟩
  · rw [hv] at herr
    simp [runLoop, loopIter, progressLog, hv, herr, finishRun]
  · cases hvb : args.verbose with
    | false =>
      rw [hvb] at herr
      simp [runLoop, loopIter, progressLog, hvb, herr, finishRun]
    | true =>
      rw [hvb] at herr
      simp [runLoop, loopIter, progressLog, hvb, herr, finishRun]

/-- Witness for C9: opening the artifact fails with errno 13 (permission
denied) and the run exits with status 13. -/
theorem c9_local_ioerror_exit_witness :
    argsPrefetch.verbose = false ∧
    (process_file hashFix worldDenied argsPrefetch.verbose "f.bin" argsPrefetch.name
      argsPrefetch.url).2 = Except.error (PyErr.ioError 13) ∧
    (runLoop hashFix worldDenied argsPrefetch none ["f.bin"] 1 none emptyOuts).exit = 13 :=
  ⟨rfl, rfl,
   c9_local_ioerror_exit hashFix worldDenied argsPrefetch none "f.bin" [] 1 none emptyOuts 13
     (Or.inl rfl) rfl⟩

/-! ### C10 — directory enumeration and recursion -/

/-- Membership transfer: what the walk of one forest member yields is part
of what the walk of the whole forest yields. -/
theorem mem_walkSubs (base : String) (x : String × List String) :
    ∀ {t : DirTree} {ts : DirForest}, ForestMem t ts →
      x ∈ walkFrom false (osJoin base (DirTree.dirname t)) t →
      x ∈ walkSubs false base ts := by
  intro t ts hmem
  induction hmem with
  | head ts =>
    intro hx
    simp only [walkSubs, List.mem_append]
    exact Or.inl hx
  | tail t' ts h ih =>
    intro hx
    simp only [walkSubs, List.mem_append]
    exact Or.inr (ih hx)

/-- Every pattern-matching file at any depth below the root appears in the
un-pruned walk's collection, with its full joined path. -/
theorem fileAt_mem_walk (pat : String → Bool) :
    ∀ {t : DirTree} {dirs : List String} {f : String}, FileAt t dirs f → pat f = true →
    ∀ base, osJoin (dirs.foldl osJoin base) f ∈
      (walkFrom false base t).flatMap (fun pr => (pr.2.filter pat).map (osJoin pr.1)) := by
  intro t dirs f h
  induction h with
  | here d files subs f hf =>
    intro hpat base
    simp only [walkFrom, List.foldl_nil, if_neg, Bool.false_eq_true, not_false_iff,
      List.flatMap_cons, List.mem_append]
    exact Or.inl (List.mem_map_of_mem _ (List.mem_filter.mpr ⟨hf, hpat⟩))
  | there d files subs t p f hmem hat ih =>
    intro hpat base
    have hx := ih hpat (osJoin base (DirTree.dirname t))
    rcases List.mem_flatMap.mp hx with ⟨pr, hpr, hg⟩
    have hpr2 := mem_walkSubs base pr hmem hpr
    simp only [walkFrom, List.foldl_cons, if_neg, Bool.false_eq_true, not_false_iff,
      List.flatMap_cons, List.mem_append]
    exact Or.inr (List.mem_flatMap.mpr ⟨pr, hpr2, hg⟩)

/-- C10 (confirmed).  With the recursive flag off the collected entries
are exactly the root directory's own matching files (no entry from any
subdirectory, matching or not, is collected: the pruning loop empties
`dirnames` so `os.walk` never descends); with the flag on, a matching file
at any depth below the root is collected under its full joined path. -/
theorem c10_enumeration (args : Args) (t : DirTree) :
    (args.recursive = false →
      matching_files args t =
        ((DirTree.filenames t).filter args.pattern).map (osJoin args.source)) ∧
    (args.recursive = true → ∀ dirs f, FileAt t dirs f → args.pattern f = true →
      osJoin (dirs.foldl osJoin args.source) f ∈ matching_files args t) := by
  constructor
  · intro hrec
    cases t with
    | node d files subs =>
      simp [matching_files, hrec, walkFrom, DirTree.filenames]
  · intro hrec dirs f hat hpat
    have hx := fileAt_mem_walk args.pattern hat hpat args.source
    simpa [matching_files, hrec] using hx

/-- Witness for C10 on a nested tree: without recursion only the root's
file is found; with recursion the subdirectory's file is found as well. -/
theorem c10_enumeration_witness :
    argsPrefetch.recursive = false ∧
    matching_files argsPrefetch dirNested = ["srcdir/r.txt"] ∧
    "srcdir/sub/s.txt" ∈ matching_files { argsPrefetch with recursive := true } dirNested :=
  ⟨rfl,
   ((c10_enumeration argsPrefetch dirNested).1 rfl).trans (by decide),
   (c10_enumeration { argsPrefetch with recursive := true } dirNested).2 rfl ["sub"] "s.txt"
     (FileAt.there "top" ["r.txt"] _ (DirTree.node "sub" ["s.txt"] DirForest.nil) [] "s.txt"
       (ForestMem.head _ _)
       (FileAt.here "sub" ["s.txt"] DirForest.nil "s.txt" (by simp))) rfl⟩

/-! ### C6 — verbose output versus the primary output -/

/-- One loop iteration run with and without the verbose flag follows the
same control flow and contributes the same content to the file sink (the
verbose chatter goes to standard output only). -/
theorem loopIter_fileOutRel (H : Hashers) (w : World) (args : Args) (nm : Nat)
    (mf : String) (counter : Nat) (stage : Option DavisStage) (acc1 acc2 : Outs)
    (h : acc1.fileOut = acc2.fileOut) :
    IterRel (loopIter H w { args with verbose := true } (some nm) mf counter stage acc1)
            (loopIter H w { args with verbose := false } (some nm) mf counter stage acc2) := by
  obtain ⟨src, alg, out, nme, u, fo, rec, pat, vb⟩ := args
  have hsnd := process_file_snd_verbose H w mf nme u
  simp only [loopIter, progressLog, reduceIte]
  rw [hsnd]
  cases hres : (process_file H w false mf nme u).2 with
  | error e =>
    cases e <;> simp [IterRel, finishRun, h]
  | ok r =>
    cases out with
    | manifest => cases fo <;> simp [emitOut, IterRel, finishRun, h]
    | prefetch => cases fo <;> simp [emitOut, IterRel, finishRun, h]
    | value =>
      cases hval : value_output alg with
      | error msg => simp [IterRel, finishRun, h]
      | ok tmpl => cases fo <;> simp [emitOut, IterRel, finishRun, h]
    | davis =>
      cases hst : (if counter = nm then some DavisStage.ending else stage) with
      | none => simp [IterRel, nameErrorHalt, finishRun, h]
      | some st =>
        cases hdav : davis_output alg st with
        | error msg => simp [IterRel, finishRun, h, hdav]
        | ok tmpl => cases fo <;> simp [emitOut, IterRel, finishRun, h, hdav]

/-- The loop's file-sink content does not depend on the verbose flag, for
any starting state, as long as `num_matches` is assigned (directory
runs). -/
theorem runLoop_fileOut_verbose (H : Hashers) (w : World) (args : Args) (nm : Nat) :
    ∀ (files : List String) (counter : Nat) (stage : Option DavisStage) (acc1 acc2 : Outs),
      acc1.fileOut = acc2.fileOut →
      (runLoop H w { args with verbose := true } (some nm) files counter stage acc1).fileOut =
      (runLoop H w { args with verbose := false } (some nm) files counter stage acc2).fileOut := by
  intro files
  induction files with
  | nil =>
    intro counter stage acc1 acc2 h
    simpa [runLoop, finishRun] using h
  | cons mf rest ih =>
    intro counter stage acc1 acc2 h
    have hrel := loopIter_fileOutRel H w args nm mf counter stage acc1 acc2 h
    simp only [runLoop]
    cases h1 : loopIter H w { args with verbose := true } (some nm) mf counter stage acc1 with
    | halt r1 =>
      cases h2 : loopIter H w { args with verbose := false } (some nm) mf counter stage acc2 with
      | halt r2 =>
        rw [h1, h2] at hrel
        exact hrel
      | next a2 s2 =>
        rw [h1, h2] at hrel
        exact hrel.elim
    | next a1 s1 =>
      cases h2 : loopIter H w { args with verbose := false } (some nm) mf counter stage acc2 with
      | halt r2 =>
        rw [h1, h2] at hrel
        exact hrel.elim
      | next a2 s2 =>
        rw [h1, h2] at hrel
        obtain ⟨hf, hs⟩ := hrel
        subst hs
        exact ih (counter + 1) s1 a1 a2 hf

/-- C6 counterexample.  With no `--file_output`, the primary output IS
standard output, and a verbose directory run interleaves its diagnostic
lines with the rendered records there: the content written to the primary
output differs between the verbose and quiet runs. -/
theorem c6_verbose_on_stdout_counterexample :
    ({ argsPrefetch with verbose := true } : Args).file_output = none ∧
    (runMain hashFix worldDir1 { argsPrefetch with verbose := true }).stdout ≠
      (runMain hashFix worldDir1 argsPrefetch).stdout ∧
    (runMain hashFix worldDir1 { argsPrefetch with verbose := true }).stdout =
      ["srcdir is a directory.", "1 matching file(s) found.",
       "Processing srcdir/a.txt...(1 of 1)", "File source is the filesystem.",
       "prefetch a.txt sha1:H1 size:2 http://REPLACEME"] ∧
    (runMain hashFix worldDir1 argsPrefetch).stdout =
      ["prefetch a.txt sha1:H1 size:2 http://REPLACEME"] := by
  refine ⟨rfl, by decide, by decide, by decide⟩

/-- C6 amended (proved).  Verbose diagnostics go to standard output, so
they do not change what reaches the `--file_output` sink: for any
directory source (where the verbose progress message does not crash the
run, cf. C4), the file-sink content is identical with and without the
verbose flag. -/
theorem c6_fileout_independent_of_verbose (H : Hashers) (w : World) (args : Args) (t : DirTree)
    (hd : w.isDir = some t) :
    (runMain H w { args with verbose := true }).fileOut =
    (runMain H w { args with verbose := false }).fileOut := by
  obtain ⟨src, alg, out, nme, u, fo, rec, pat, vb⟩ := args
  simp only [runMain, hd, matching_files, reduceIte]
  by_cases hz :
      ((walkFrom (!rec) src t).flatMap (fun pr => (pr.2.filter pat).map (osJoin pr.1))).length = 0
  · simp [hz, finishRun]
  · simp only [hz, if_neg, if_false]
    exact runLoop_fileOut_verbose H w ⟨src, alg, out, nme, u, fo, rec, pat, vb⟩ _ _ _ _ _ _ rfl

/-- Witness for the amended C6: a directory run writing records to a file
appends the same file content with and without the verbose flag. -/
theorem c6_fileout_independent_of_verbose_witness :
    worldDir1.isDir = some dirTree1 ∧
    (runMain hashFix worldDir1 { argsFileOut with verbose := true }).fileOut =
      (runMain hashFix worldDir1 { argsFileOut with verbose := false }).fileOut :=
  ⟨rfl, c6_fileout_independent_of_verbose hashFix worldDir1 argsFileOut dirTree1 rfl⟩

end MakePrefetch
